import Mathlib

/-!
# A verification development for the `cloud` WebDAV client

The Go package `cloud` (`src/cloud.go`, `src/model/*.go`) is a thin client: every
method builds one or more HTTP requests, hands them to `sendRequest`, and turns
the answer into a typed result.  The embedding below keeps that shape.

* Go values: a `string` and a `[]byte` are both `String` (`Bytes`); a pointer or
  a slice that may be `nil` is an `Option`; the `error` interface is
  `Option GoError`.
* The Go standard library (`net/url`, `net/http`, `io/ioutil`, `encoding/xml`,
  `encoding/json`) and the remote server are not part of the repository.  They
  are the fields of a structure `Lib σ`, over which every theorem quantifies;
  `σ` is the state of the remote server.
* A run-time panic (nil dereference, index out of range) is the constructor
  `Go.panic`; a normal return is `Go.ret`.
-/

namespace Cloud

/-! ## Go values -/

/-- Byte slices (`[]byte`) are represented by the text they hold. -/
abbrev Bytes := String

/-- An error value made by the standard library: the sentinel `io.EOF`, or any
other error, recorded with the package that made it and its message. -/
inductive LibError where
  | EOF
  | other (pkg : String) (msg : String)
  deriving DecidableEq, Repr

/-- Text of a library error, as `%s` prints it. -/
def LibError.Error : LibError → String
  | .EOF => "EOF"
  | .other _ msg => msg

/-- The Go `error` values this package can hand to a caller: a library error
passed on unchanged, or a fresh error made by `fmt.Errorf` with the given text. -/
inductive GoError where
  | lib (e : LibError)
  | errorf (text : String)
  deriving DecidableEq, Repr

/-- Outcome of a Go call that may panic instead of returning. -/
inductive Go (α : Type) where
  | ret (a : α)
  | panic (msg : String)
  deriving DecidableEq, Repr

/-- Message of the run-time panic raised by reading a field through a nil pointer. -/
def nilDeref : String := "invalid memory address or nil pointer dereference"

/-- Message of the run-time panic raised by indexing a slice at position 0 when it is empty. -/
def indexOutOfRange : String := "index out of range [0] with length 0"

/-! ## `src/model` -/

/-- Go `xml.Name`. -/
structure XMLName where
  Space : String := ""
  Local : String := ""
  deriving DecidableEq, Repr

/-- Go `model.Property`. -/
structure Property where
  XMLName : XMLName := {}
  LastModified : String := ""
  Etag : String := ""
  ContentType : String := ""
  ResourceType : String := ""
  ContentLength : String := ""
  HasPreview : String := ""
  FileId : String := ""
  Permissions : String := ""
  Size : String := ""
  Favorite : String := ""
  CommentsUnread : String := ""
  OwnerDisplayName : String := ""
  ShareTypes : String := ""
  deriving DecidableEq, Repr

/-- Go `model.Properties` (its field `Prop` is `PropValue` here). -/
structure Properties where
  XMLName : XMLName := {}
  XmlnsD : String := ""
  XmlnsOC : String := ""
  XmlnsNC : String := ""
  PropValue : Property := {}
  deriving DecidableEq, Repr

/-- Go `model.PropResponse`; the slice `Properties` may be nil. -/
structure PropResponse where
  XMLName : XMLName := {}
  Href : String := ""
  Properties : Option (List Property) := none
  deriving DecidableEq, Repr

/-- Go `model.MultiStatusResponse`; the slice `Responses` may be nil. -/
structure MultiStatusResponse where
  XMLName : XMLName := {}
  Responses : Option (List PropResponse) := none
  deriving DecidableEq, Repr

/-- Go `model.CreateProperties`. -/
def CreateProperties : Properties :=
  { XmlnsD := "DAV:", XmlnsNC := "http://nextcloud.org/ns", XmlnsOC := "http://owncloud.org/ns", PropValue := {} }

/-- Go `model.Tag`. -/
structure Tag where
  CanAssign : Bool := false
  UserAssignable : Bool := false
  UserVisible : Bool := false
  Name : String := ""
  deriving DecidableEq, Repr

/-- Go `model.SystemTagProperty`. -/
structure SystemTagProperty where
  Id : String := ""
  DisplayName : String := ""
  UserVisible : String := ""
  UserAssignable : String := ""
  CanAssign : String := ""
  deriving DecidableEq, Repr

/-- Go `model.SystemTagProperties` (its field `Prop` is `PropValue` here). -/
structure SystemTagProperties where
  XMLName : XMLName := {}
  XmlnsD : String := ""
  XmlnsOC : String := ""
  XmlnsNC : String := ""
  PropValue : SystemTagProperty := {}
  deriving DecidableEq, Repr

/-- Go `model.TagPropResponse`; the slice `Properties` may be nil. -/
structure TagPropResponse where
  XMLName : XMLName := {}
  Href : String := ""
  Properties : Option (List SystemTagProperty) := none
  deriving DecidableEq, Repr

/-- Go `model.MultiStatusTagResponse`; the slice `Responses` may be nil. -/
structure MultiStatusTagResponse where
  XMLName : XMLName := {}
  Responses : Option (List TagPropResponse) := none
  deriving DecidableEq, Repr

/-- Go `model.CreateTagProperties`. -/
def CreateTagProperties : SystemTagProperties :=
  { XmlnsD := "DAV:", XmlnsNC := "http://nextcloud.org/ns", XmlnsOC := "http://owncloud.org/ns", PropValue := {} }

/-! ## `src/cloud.go`: types -/

/-- A parsed `*url.URL`, kept as the text its `String()` method prints. -/
structure URL where
  String : String
  deriving DecidableEq, Repr

/-- Go `cloud.Client`. -/
structure Client where
  Url : URL
  Username : String
  Password : String
  deriving DecidableEq, Repr

/-- Go `cloud.Header`. -/
structure Header where
  Name : String
  Value : String
  deriving DecidableEq, Repr

/-- Go `cloud.Error`: the exception/message envelope of a server fault. -/
structure Error where
  Exception : String := ""
  Message : String := ""
  deriving DecidableEq, Repr

/-- The part of `*http.Response` this package reads. -/
structure Response where
  StatusCode : Int
  deriving DecidableEq, Repr

/-- The request handed to `client.Do`: what `http.NewRequest`, `SetBasicAuth`
and `Header.Add` have put into it. -/
structure HttpRequest where
  Method : String
  URL : String
  Body : Bytes
  AuthUser : String
  AuthPassword : String
  Header : List Header
  deriving DecidableEq, Repr

/-- What `client.Do` hands back when it does not fail: the status line and the
body stream, the latter given by what `ioutil.ReadAll` makes of it. -/
structure RawResponse where
  StatusCode : Int
  Body : Except LibError Bytes

/-- The standard library and the remote server, as far as this package uses
them.  `σ` is the server's state; `clientDo` is one HTTP exchange. -/
structure Lib (σ : Type) where
  /-- Go `url.Parse`. -/
  urlParse : String → Except LibError URL
  /-- Go `base.ResolveReference(ref)`. -/
  resolveReference : URL → URL → URL
  /-- Go `http.NewRequest`: the error it reports for a method and a URL, if any. -/
  newRequest : String → String → Option LibError
  /-- Go `client.Do`. -/
  clientDo : HttpRequest → σ → Except LibError RawResponse × σ
  /-- Go `xml.Unmarshal` into a `*cloud.Error`. -/
  xmlUnmarshalError : Bytes → Error → Error × Option LibError
  /-- Go `xml.Unmarshal` into a `*model.MultiStatusResponse`. -/
  xmlUnmarshalDir : Bytes → MultiStatusResponse → MultiStatusResponse × Option LibError
  /-- Go `xml.Unmarshal` into a `*model.MultiStatusTagResponse`. -/
  xmlUnmarshalTags : Bytes → MultiStatusTagResponse → MultiStatusTagResponse × Option LibError
  /-- Go `xml.Marshal` of a `*model.Properties`. -/
  xmlMarshalProperties : Properties → Except LibError Bytes
  /-- Go `xml.Marshal` of a `*model.SystemTagProperties`. -/
  xmlMarshalTagProperties : SystemTagProperties → Except LibError Bytes
  /-- Go `json.Marshal` of a `*model.Tag`. -/
  jsonMarshalTag : Tag → Except LibError Bytes

/-- The world a call runs in: the server's state, and (ghost state, for stating
what was sent) the requests handed to `client.Do` so far, oldest first. -/
structure Net (σ : Type) where
  server : σ
  log : List HttpRequest

/-- A non-nil `returnValue` of `sendRequest`: the value it points to, and
`xml.Unmarshal` at that value's type. -/
structure Target (α : Type) where
  value : α
  unmarshal : Bytes → α → α × Option LibError

/-- The three results of `sendRequest`, and the value its `returnValue`
argument points to when the call is over (`none` when it was nil). -/
structure Sent (α : Type) where
  resp : Option Response
  content : Option Bytes
  err : Option GoError
  value : Option α
  deriving DecidableEq, Repr

/-- Go `body, _ := xml.Marshal(..)` and `json.Marshal(..)`: the bytes, nil on failure. -/
def marshalled (r : Except LibError Bytes) : Option Bytes :=
  match r with
  | .ok b => some b
  | .error _ => none

/-! ## `src/cloud.go`: the transport helper -/

/-- Lines 259–288 of `sendRequest`: resolve the path, build the request, send
it and read the whole body.  The result is the error of the first step that
fails, or the response with its body. -/
def roundTrip {σ : Type} (L : Lib σ) (c : Client) (request path : String) (body : Option Bytes)
    (headers : Option (List Header)) (w : Net σ) : Except GoError (Response × Bytes) × Net σ :=
  match L.urlParse path with
  | .error e => (.error (.lib e), w)
  | .ok folderUrl =>
    let target := (L.resolveReference c.Url folderUrl).String
    match L.newRequest request target with
    | some e => (.error (.lib e), w)
    | none =>
      let req : HttpRequest :=
        { Method := request, URL := target, Body := body.getD "",
          AuthUser := c.Username, AuthPassword := c.Password, Header := headers.getD [] }
      match L.clientDo req w.server with
      | (.error e, s) => (.error (.lib e), { server := s, log := w.log ++ [req] })
      | (.ok raw, s) =>
        match raw.Body with
        | .error e => (.error (.lib e), { server := s, log := w.log ++ [req] })
        | .ok content => (.ok ({ StatusCode := raw.StatusCode }, content), { server := s, log := w.log ++ [req] })

/-- Lines 299–310 of `sendRequest`: decode the body as an `Error` envelope. -/
def decodeError {σ α : Type} (L : Lib σ) (resp : Response) (content : Bytes) (value : Option α) : Sent α :=
  match L.xmlUnmarshalError content {} with
  | (_, some e) =>
    if e = LibError.EOF then
      { resp := some resp, content := some content, err := none, value := value }
    else
      { resp := some resp, content := some content,
        err := some (.errorf ("error during XML Unmarshal for response " ++ content ++ ". the error was " ++ e.Error)),
        value := value }
  | (errorXml, none) =>
    if errorXml.Exception ≠ "" then
      { resp := some resp, content := some content,
        err := some (.errorf ("exception: " ++ errorXml.Exception ++ ", message: " ++ errorXml.Message)),
        value := value }
    else
      { resp := some resp, content := some content, err := none, value := value }

/-- Lines 290–313 of `sendRequest`: classify a body that was read in full. -/
def decodeResponse {σ α : Type} (L : Lib σ) (resp : Response) (content : Bytes)
    (returnValue : Option (Target α)) : Sent α :=
  if content.length > 0 then
    match returnValue with
    | some t =>
      match t.unmarshal content t.value with
      | (v, none) => { resp := some resp, content := some content, err := none, value := some v }
      | (v, some _) => decodeError L resp content (some v)
    | none => decodeError L resp content none
  else
    { resp := some resp, content := some content, err := none, value := returnValue.map (·.value) }

/-- Go `(*Client).sendRequest`. -/
def sendRequest {σ α : Type} (L : Lib σ) (c : Client) (request path : String) (body : Option Bytes)
    (returnValue : Option (Target α)) (headers : Option (List Header)) (w : Net σ) : Sent α × Net σ :=
  match roundTrip L c request path body headers w with
  | (.error e, w1) => ({ resp := none, content := none, err := some e, value := returnValue.map (·.value) }, w1)
  | (.ok (resp, content), w1) => (decodeResponse L resp content returnValue, w1)

/-! ## `src/cloud.go`: the client operations -/

/-- The test `resp != nil && resp.StatusCode == code`. -/
def hasStatus (resp : Option Response) (code : Int) : Bool :=
  match resp with
  | none => false
  | some r => r.StatusCode == code

/-- Go `(*Client).ListDirectory`. -/
def ListDirectory {σ : Type} (L : Lib σ) (c : Client) (path : String) (depth : Int) (w : Net σ) :
    (Option MultiStatusResponse × Option GoError) × Net σ :=
  let properties := CreateProperties
  match L.urlParse ("files/" ++ c.Username ++ "/" ++ path) with
  | .error e => ((none, some (.lib e)), w)
  | .ok destUrl =>
    let headers : List Header := [{ Name := "Depth", Value := toString depth }]
    let body := marshalled (L.xmlMarshalProperties properties)
    let dir : MultiStatusResponse := {}
    match sendRequest L c "PROPFIND" (L.resolveReference c.Url destUrl).String body
        (some { value := dir, unmarshal := L.xmlUnmarshalDir }) (some headers) w with
    | (r, w1) =>
      if hasStatus r.resp 404 then ((none, some (.errorf "file not found")), w1)
      else
        match r.err with
        | some e => ((none, some e), w1)
        | none => ((some (r.value.getD dir), none), w1)

/-- Go `(*Client).Mkdir`.  Line 85 reads `resp.StatusCode` without testing `resp`. -/
def Mkdir {σ : Type} (L : Lib σ) (c : Client) (path : String) (w : Net σ) : Go (Option GoError) × Net σ :=
  match sendRequest L c "MKCOL" ("files/" ++ c.Username ++ "/" ++ path) none (none : Option (Target Unit)) none w with
  | (r, w1) =>
    match r.resp with
    | none => (.panic nilDeref, w1)
    | some resp => if resp.StatusCode = 405 then (.ret none, w1) else (.ret r.err, w1)

/-- Go `(*Client).Delete`. -/
def Delete {σ : Type} (L : Lib σ) (c : Client) (path : String) (w : Net σ) : Option GoError × Net σ :=
  match sendRequest L c "DELETE" ("files/" ++ c.Username ++ "/" ++ path) none (none : Option (Target Unit)) none w with
  | (r, w1) => (r.err, w1)

/-- Go `(*Client).Upload`. -/
def Upload {σ : Type} (L : Lib σ) (c : Client) (src : Bytes) (dest : String) (w : Net σ) : Option GoError × Net σ :=
  match L.urlParse ("files/" ++ c.Username ++ "/" ++ dest) with
  | .error e => (some (.lib e), w)
  | .ok destUrl =>
    match sendRequest L c "PUT" (L.resolveReference c.Url destUrl).String (some src)
        (none : Option (Target Unit)) none w with
    | (r, w1) => (r.err, w1)

/-- Go `(*Client).Download`. -/
def Download {σ : Type} (L : Lib σ) (c : Client) (path : String) (w : Net σ) :
    (Option Bytes × Option GoError) × Net σ :=
  match L.urlParse ("files/" ++ c.Username ++ "/" ++ path) with
  | .error e => ((none, some (.lib e)), w)
  | .ok pathUrl =>
    match sendRequest L c "GET" (L.resolveReference c.Url pathUrl).String none
        (none : Option (Target Unit)) none w with
    | (r, w1) =>
      match r.err with
      | some e => ((none, some e), w1)
      | none => ((r.content, none), w1)

/-- Go `(*Client).Exists`. -/
def Exists {σ : Type} (L : Lib σ) (c : Client) (path : String) (w : Net σ) : Bool × Net σ :=
  match sendRequest L c "PROPFIND" ("files/" ++ c.Username ++ "/" ++ path) none (none : Option (Target Unit)) none w with
  | (r, w1) => (r.err == none, w1)

/-- Go `(*Client).GetSystemTags`. -/
def GetSystemTags {σ : Type} (L : Lib σ) (c : Client) (w : Net σ) :
    (Option MultiStatusTagResponse × Option GoError) × Net σ :=
  match L.urlParse "systemtags/" with
  | .error e => ((none, some (.lib e)), w)
  | .ok pathUrl =>
    let props := marshalled (L.xmlMarshalTagProperties CreateTagProperties)
    let resp : MultiStatusTagResponse := {}
    match sendRequest L c "PROPFIND" (L.resolveReference c.Url pathUrl).String props
        (some { value := resp, unmarshal := L.xmlUnmarshalTags }) none w with
    | (r, w1) =>
      match r.err with
      | some e => ((none, some e), w1)
      | none => ((some (r.value.getD resp), none), w1)

/-- Inner loop of `FindSystemTag` (lines 195–199): does some property of the
response carry the display name? -/
def hasDisplayName (displayName : String) : List SystemTagProperty → Bool
  | [] => false
  | properties :: rest =>
    if properties.DisplayName = displayName then true else hasDisplayName displayName rest

/-- Outer loop of `FindSystemTag` (lines 194–202): the response returned. -/
def findResponse (displayName : String) : List TagPropResponse → Option TagPropResponse
  | [] => none
  | tag :: rest =>
    if hasDisplayName displayName (tag.Properties.getD []) then some tag
    else findResponse displayName rest

/-- Go `(*Client).FindSystemTag`.  Line 194 reads `tags.Responses`; `tags` is nil
only together with a non-nil `err`, which line 190 has returned by then. -/
def FindSystemTag {σ : Type} (L : Lib σ) (c : Client) (displayName : String) (w : Net σ) :
    Go (Option TagPropResponse × Option GoError) × Net σ :=
  match GetSystemTags L c w with
  | ((_, some e), w1) => (.ret (none, some e), w1)
  | ((none, none), w1) => (.panic nilDeref, w1)
  | ((some tags, none), w1) => (.ret (findResponse displayName (tags.Responses.getD []), none), w1)

/-- Go `(*Client).AddSystemTag`.  Line 245 reads `resp.StatusCode` without testing `resp`. -/
def AddSystemTag {σ : Type} (L : Lib σ) (c : Client) (tag : Tag) (w : Net σ) :
    Go (Bool × Option GoError) × Net σ :=
  match L.urlParse "systemtags/" with
  | .error e => (.ret (false, some (.lib e)), w)
  | .ok pathUrl =>
    let body := marshalled (L.jsonMarshalTag tag)
    let headers : List Header := [{ Name := "Content-Type", Value := "application/json" }]
    match sendRequest L c "POST" (L.resolveReference c.Url pathUrl).String body
        (none : Option (Target Unit)) (some headers) w with
    | (r, w1) =>
      match r.resp with
      | none => (.panic nilDeref, w1)
      | some resp =>
        if resp.StatusCode = 409 then (.ret (false, none), w1)
        else
          match r.err with
          | some e => (.ret (false, some e), w1)
          | none => (.ret (true, none), w1)

/-- Inner loop of `AddTag` (lines 162–166): every property with the tag's name
overwrites `systemTag`. -/
def scanProperties (name : String) (systemTag : SystemTagProperty) : List SystemTagProperty → SystemTagProperty
  | [] => systemTag
  | prop :: rest => scanProperties name (if prop.DisplayName = name then prop else systemTag) rest

/-- Outer loop of `AddTag` (lines 161–167). -/
def scanResponses (name : String) (systemTag : SystemTagProperty) : List TagPropResponse → SystemTagProperty
  | [] => systemTag
  | response :: rest => scanResponses name (scanProperties name systemTag (response.Properties.getD [])) rest

/-- Lines 173–184 of `AddTag`: read the file id and send the association. -/
def associate {σ : Type} (L : Lib σ) (c : Client) (responses : List PropResponse) (systemTag : SystemTagProperty)
    (body : Option Bytes) (headers : List Header) (w : Net σ) : Go (Bool × Option GoError) × Net σ :=
  match responses with
  | [] => (.panic indexOutOfRange, w)
  | first :: _ =>
    match first.Properties.getD [] with
    | [] => (.panic indexOutOfRange, w)
    | prop :: _ =>
      let fileId := prop.FileId
      match sendRequest L c "PUT" ("systemtags-relations/files/" ++ fileId ++ "/" ++ systemTag.Id) body
          (none : Option (Target Unit)) (some headers) w with
      | (r, w1) =>
        match r.resp with
        | none => (.panic nilDeref, w1)
        | some resp =>
          if resp.StatusCode = 409 then (.ret (false, none), w1)
          else
            match r.err with
            | some e => (.ret (false, some e), w1)
            | none => (.ret (true, none), w1)

/-- Go `(*Client).AddTag`, for a non-nil `tag`.  Line 161 reads `tags.Responses`
without testing `tags`, line 173 indexes two slices at 0 without testing their
lengths, line 176 reads `resp.StatusCode` without testing `resp`. -/
def AddTag {σ : Type} (L : Lib σ) (c : Client) (path : String) (tag : Tag) (w : Net σ) :
    Go (Bool × Option GoError) × Net σ :=
  match AddSystemTag L c tag w with
  | (.panic m, w1) => (.panic m, w1)
  | (.ret (_, some e), w1) => (.ret (false, some e), w1)
  | (.ret (_, none), w1) =>
    match ListDirectory L c path 0 w1 with
    | ((none, err), w2) => (.ret (false, err), w2)
    | ((some file, err), w2) =>
      match file.Responses with
      | none => (.ret (false, err), w2)
      | some responses =>
        let body := marshalled (L.jsonMarshalTag tag)
        let headers : List Header := [{ Name := "Content-Type", Value := "application/json" }]
        match GetSystemTags L c w2 with
        | ((none, _), w3) => (.panic nilDeref, w3)
        | ((some tags, _), w3) =>
          let systemTag := scanResponses tag.Name {} (tags.Responses.getD [])
          if systemTag.Id = "" then
            (.ret (false, some (.errorf ("could not find system tag with name " ++ tag.Name))), w3)
          else associate L c responses systemTag body headers w3

/-! ## Notions used in the statements -/

/-- The body was XML-decoded, without error, into a target value that was supplied. -/
def decodedIntoTarget {α : Type} (returnValue : Option (Target α)) (content : Bytes) : Prop :=
  ∃ t, returnValue = some t ∧ (t.unmarshal content t.value).2 = none


/-- The verdict of lines 290–310 on a body when no target takes it: the body is
non-empty and its decode as an `Error` envelope either fails with something
other than `io.EOF` or yields a non-empty `Exception`. -/
def readsAsFault {σ : Type} (L : Lib σ) (content : Bytes) : Prop :=
  content ≠ "" ∧
    (((L.xmlUnmarshalError content {}).2 ≠ none ∧ (L.xmlUnmarshalError content {}).2 ≠ some LibError.EOF)
      ∨ ((L.xmlUnmarshalError content {}).2 = none ∧ (L.xmlUnmarshalError content {}).1.Exception ≠ ""))

instance {σ : Type} (L : Lib σ) (content : Bytes) : Decidable (readsAsFault L content) := by
  unfold readsAsFault
  infer_instance

/-- All properties of a tag listing, in listing order. -/
def allTagProperties : List TagPropResponse → List SystemTagProperty
  | [] => []
  | response :: rest => response.Properties.getD [] ++ allTagProperties rest

/-! ## A concrete library and two concrete servers, for examples

The codec functions below tabulate what `net/url` and `encoding/xml` return on
the handful of inputs the examples use; they are not a model of those packages
on other inputs. -/

/-- Body Nextcloud sends with `405` when MKCOL hits an existing collection. -/
def alreadyExistsXml : Bytes :=
  "<d:error xmlns:d=\"DAV:\" xmlns:s=\"http://sabredav.org/ns\"><s:exception>MethodNotAllowed</s:exception><s:message>The resource you tried to create already exists</s:message></d:error>"

/-- Body Nextcloud sends with `404` for a path that does not exist. -/
def notFoundXml : Bytes :=
  "<d:error xmlns:d=\"DAV:\" xmlns:s=\"http://sabredav.org/ns\"><s:exception>NotFound</s:exception><s:message>File not found</s:message></d:error>"

/-- Body Nextcloud sends with `409` when a tag or a tag relation already exists. -/
def conflictXml : Bytes :=
  "<d:error xmlns:d=\"DAV:\" xmlns:s=\"http://sabredav.org/ns\"><s:exception>Conflict</s:exception><s:message>Tag already exists</s:message></d:error>"

/-- A depth-0 multistatus for one file, with its file id. -/
def dirListingXml : Bytes :=
  "<d:multistatus xmlns:d=\"DAV:\" xmlns:oc=\"http://owncloud.org/ns\"><d:response><d:href>/remote.php/dav/files/admin/Test/test.txt</d:href><d:propstat><d:prop><oc:fileid>42</oc:fileid></d:prop></d:propstat></d:response></d:multistatus>"

/-- A multistatus whose only response carries a status instead of a `propstat`. -/
def dirNoPropsXml : Bytes :=
  "<d:multistatus xmlns:d=\"DAV:\"><d:response><d:href>/remote.php/dav/files/admin/Test/test.txt</d:href><d:status>HTTP/1.1 200 OK</d:status></d:response></d:multistatus>"

/-- A tag listing with the one tag `Test123`, id 7. -/
def tagListingXml : Bytes :=
  "<d:multistatus xmlns:d=\"DAV:\" xmlns:oc=\"http://owncloud.org/ns\"><d:response><d:href>/remote.php/dav/systemtags/7</d:href><d:propstat><d:prop><oc:id>7</oc:id><oc:display-name>Test123</oc:display-name></d:prop></d:propstat></d:response></d:multistatus>"

/-- A tag listing in which `Test123` appears twice: first with id 7, then with an empty id. -/
def tagListingTwiceXml : Bytes :=
  "<d:multistatus xmlns:d=\"DAV:\" xmlns:oc=\"http://owncloud.org/ns\"><d:response><d:href>/remote.php/dav/systemtags/7</d:href><d:propstat><d:prop><oc:id>7</oc:id><oc:display-name>Test123</oc:display-name></d:prop></d:propstat></d:response><d:response><d:href>/remote.php/dav/systemtags/</d:href><d:propstat><d:prop><oc:id></oc:id><oc:display-name>Test123</oc:display-name></d:prop></d:propstat></d:response></d:multistatus>"

/-- A user file that happens to be an XML document with an `exception` element. -/
def faultDocument : Bytes :=
  "<error><exception>Boom</exception><message>stored by the user</message></error>"

/-- Does the text hold a `<`?  Without one, `encoding/xml` finds no start element
and `xml.Unmarshal` ends with `io.EOF`. -/
def hasMarkup (data : Bytes) : Bool := data.data.contains '<'

/-- The error `encoding/xml` gives for a document cut short, such as `<a>`. -/
def syntaxError : LibError := .other "encoding/xml" "XML syntax error on line 1: unexpected EOF"

/-- Table of `xml.Unmarshal` into a `*cloud.Error`. -/
def demoUnmarshalError (data : Bytes) (e : Error) : Error × Option LibError :=
  if data = alreadyExistsXml then
    ({ Exception := "MethodNotAllowed", Message := "The resource you tried to create already exists" }, none)
  else if data = notFoundXml then ({ Exception := "NotFound", Message := "File not found" }, none)
  else if data = conflictXml then ({ Exception := "Conflict", Message := "Tag already exists" }, none)
  else if data = faultDocument then ({ Exception := "Boom", Message := "stored by the user" }, none)
  else if data = dirListingXml ∨ data = dirNoPropsXml ∨ data = tagListingXml ∨ data = tagListingTwiceXml then (e, none)
  else if hasMarkup data then (e, some syntaxError)
  else (e, some .EOF)

/-- The error `encoding/xml` gives when the root element is not `multistatus`. -/
def rootMismatch : LibError := .other "encoding/xml" "expected element type <multistatus> but have <error>"

/-- Table of `xml.Unmarshal` into a `*model.MultiStatusResponse`. -/
def demoUnmarshalDir (data : Bytes) (v : MultiStatusResponse) : MultiStatusResponse × Option LibError :=
  if data = dirListingXml then
    ({ XMLName := { Space := "DAV:", Local := "multistatus" },
       Responses := some [{ XMLName := { Space := "DAV:", Local := "response" },
                            Href := "/remote.php/dav/files/admin/Test/test.txt",
                            Properties := some [{ XMLName := { Space := "DAV:", Local := "prop" }, FileId := "42" }] }] }, none)
  else if data = dirNoPropsXml then
    ({ XMLName := { Space := "DAV:", Local := "multistatus" },
       Responses := some [{ XMLName := { Space := "DAV:", Local := "response" },
                            Href := "/remote.php/dav/files/admin/Test/test.txt",
                            Properties := none }] }, none)
  else if hasMarkup data then (v, some rootMismatch)
  else (v, some .EOF)

/-- Table of `xml.Unmarshal` into a `*model.MultiStatusTagResponse`. -/
def demoUnmarshalTags (data : Bytes) (v : MultiStatusTagResponse) : MultiStatusTagResponse × Option LibError :=
  if data = tagListingXml then
    ({ XMLName := { Space := "DAV:", Local := "multistatus" },
       Responses := some [{ XMLName := { Space := "DAV:", Local := "response" },
                            Href := "/remote.php/dav/systemtags/7",
                            Properties := some [{ Id := "7", DisplayName := "Test123" }] }] }, none)
  else if data = tagListingTwiceXml then
    ({ XMLName := { Space := "DAV:", Local := "multistatus" },
       Responses := some [{ XMLName := { Space := "DAV:", Local := "response" },
                            Href := "/remote.php/dav/systemtags/7",
                            Properties := some [{ Id := "7", DisplayName := "Test123" }] },
                          { XMLName := { Space := "DAV:", Local := "response" },
                            Href := "/remote.php/dav/systemtags/",
                            Properties := some [{ Id := "", DisplayName := "Test123" }] }] }, none)
  else if hasMarkup data then (v, some rootMismatch)
  else (v, some .EOF)

/-- Table of `url.Parse`: text with an ASCII control character is refused, any
other text is taken as it stands. -/
def demoUrlParse (s : String) : Except LibError URL :=
  if s.data.any (fun ch => ch.toNat < 32 ∨ ch.toNat = 127) then
    .error (.other "net/url" "net/url: invalid control character in URL")
  else .ok { String := s }

/-- Table of `ResolveReference`: an absolute reference stands for itself, a
relative path is appended to a base that ends in `/`. -/
def demoResolve (base ref : URL) : URL :=
  if ref.String.data.take 8 = "https://".data then ref else { String := base.String ++ ref.String }

/-- A server that keeps files and collections: PUT stores the body under the
URL, GET returns what was stored, MKCOL creates a collection once. -/
structure Store where
  files : List (String × Bytes)
  dirs : List String
  deriving DecidableEq, Repr

/-- One exchange with the storing server. -/
def storeDo (req : HttpRequest) (s : Store) : Except LibError RawResponse × Store :=
  if req.Method = "PUT" then
    (.ok { StatusCode := 201, Body := .ok "" }, { s with files := (req.URL, req.Body) :: s.files })
  else if req.Method = "GET" then
    match s.files.lookup req.URL with
    | some stored => (.ok { StatusCode := 200, Body := .ok stored }, s)
    | none => (.ok { StatusCode := 404, Body := .ok notFoundXml }, s)
  else if req.Method = "MKCOL" then
    if s.dirs.contains req.URL then (.ok { StatusCode := 405, Body := .ok alreadyExistsXml }, s)
    else (.ok { StatusCode := 201, Body := .ok "" }, { s with dirs := req.URL :: s.dirs })
  else (.ok { StatusCode := 501, Body := .ok "" }, s)

/-- One exchange with a scripted server: the next canned outcome, or a refused
connection when the script is over. -/
def scriptDo (_req : HttpRequest) (s : List (Except LibError RawResponse)) :
    Except LibError RawResponse × List (Except LibError RawResponse) :=
  match s with
  | [] => (.error (.other "net/http" "dial tcp: connection refused"), [])
  | next :: rest => (next, rest)

/-- The library with the tabulated codecs, over a server given by its exchange function. -/
def demoLib {σ : Type} (exchange : HttpRequest → σ → Except LibError RawResponse × σ) : Lib σ where
  urlParse := demoUrlParse
  resolveReference := demoResolve
  newRequest := fun _ _ => none
  clientDo := exchange
  xmlUnmarshalError := demoUnmarshalError
  xmlUnmarshalDir := demoUnmarshalDir
  xmlUnmarshalTags := demoUnmarshalTags
  xmlMarshalProperties := fun _ => .ok "<propfind xmlns=\"DAV:\"></propfind>"
  xmlMarshalTagProperties := fun _ => .ok "<propfind xmlns=\"DAV:\"></propfind>"
  jsonMarshalTag := fun t => .ok ("\x7b\"canAssign\":" ++ toString t.CanAssign ++ ",\"UserAssignable\":"
    ++ toString t.UserAssignable ++ ",\"userVisible\":" ++ toString t.UserVisible
    ++ ",\"name\":\"" ++ t.Name ++ "\"\x7d")

/-- The client of the test suite. -/
def demoClient : Client :=
  { Url := { String := "https://cloud.example.com/remote.php/dav/" }, Username := "admin", Password := "secret" }

/-- A reply that was received and read in full. -/
def reply (status : Int) (body : Bytes) : Except LibError RawResponse :=
  .ok { StatusCode := status, Body := .ok body }

/-- A reply whose body stream breaks while it is read. -/
def brokenReply (status : Int) : Except LibError RawResponse :=
  .ok { StatusCode := status, Body := .error (.other "io" "unexpected EOF") }

/-- No reply at all: `client.Do` fails. -/
def noReply : Except LibError RawResponse :=
  .error (.other "net/http" "dial tcp: connection refused")

/-- A world that starts with the given server state and an empty request log. -/
def start {σ : Type} (s : σ) : Net σ := { server := s, log := [] }

/-- The tag of `TestAddTagToFile`. -/
def testTag : Tag := { Name := "Test123", CanAssign := true, UserVisible := true, UserAssignable := true }

/-- The server of a second `AddTag`: the tag exists (409), the file is listed,
the tag listing follows, the relation exists (409). -/
def secondAddTag (tagListing : Bytes) : Net (List (Except LibError RawResponse)) :=
  start [reply 409 conflictXml, reply 207 dirListingXml, reply 207 tagListing, reply 409 conflictXml]

/-! ## Facts about the transport helper -/

theorem length_pos_iff_ne_empty (s : String) : s.length > 0 ↔ s ≠ "" := by
  cases s with
  | mk l =>
    cases l with
    | nil => simp [String.length]
    | cons a t =>
      simp [String.length]
      intro h
      exact absurd (congrArg String.data h) (by simp)

theorem sendRequest_of_roundTrip {σ α : Type} (L : Lib σ) (c : Client) (request path : String)
    (body : Option Bytes) (returnValue : Option (Target α)) (headers : Option (List Header))
    (w w1 : Net σ) (resp : Response) (content : Bytes)
    (h : roundTrip L c request path body headers w = (.ok (resp, content), w1)) :
    sendRequest L c request path body returnValue headers w = (decodeResponse L resp content returnValue, w1) := by
  simp [sendRequest, h]

theorem sendRequest_of_roundTrip_error {σ α : Type} (L : Lib σ) (c : Client) (request path : String)
    (body : Option Bytes) (returnValue : Option (Target α)) (headers : Option (List Header))
    (w w1 : Net σ) (e : GoError)
    (h : roundTrip L c request path body headers w = (.error e, w1)) :
    sendRequest L c request path body returnValue headers w =
      ({ resp := none, content := none, err := some e, value := returnValue.map (·.value) }, w1) := by
  simp [sendRequest, h]

theorem decodeError_resp {σ α : Type} (L : Lib σ) (resp : Response) (content : Bytes) (v : Option α) :
    (decodeError L resp content v).resp = some resp ∧ (decodeError L resp content v).content = some content
      ∧ (decodeError L resp content v).value = v := by
  unfold decodeError
  split
  · split <;> simp
  · split <;> simp

theorem decodeResponse_resp {σ α : Type} (L : Lib σ) (resp : Response) (content : Bytes)
    (returnValue : Option (Target α)) :
    (decodeResponse L resp content returnValue).resp = some resp
      ∧ (decodeResponse L resp content returnValue).content = some content := by
  unfold decodeResponse
  split
  · split
    · split
      · simp
      · exact ⟨(decodeError_resp L resp content _).1, (decodeError_resp L resp content _).2.1⟩
    · exact ⟨(decodeError_resp L resp content _).1, (decodeError_resp L resp content _).2.1⟩
  · simp

theorem decodeError_err_iff {σ α : Type} (L : Lib σ) (resp : Response) (content : Bytes) (v : Option α) :
    (decodeError L resp content v).err ≠ none ↔
      ((∃ e, (L.xmlUnmarshalError content {}).2 = some e ∧ e ≠ LibError.EOF)
        ∨ ((L.xmlUnmarshalError content {}).2 = none ∧ (L.xmlUnmarshalError content {}).1.Exception ≠ "")) := by
  unfold decodeError
  split
  · rename_i x e hx
    split
    · rename_i he
      simp [hx, he]
    · rename_i he
      simp [hx, he]
  · rename_i x errorXml hx
    split
    · rename_i hne
      simp [hx, hne]
    · rename_i hne
      simp [hx] at hne ⊢
      exact hne

theorem decodeError_exception {σ α : Type} (L : Lib σ) (resp : Response) (content : Bytes) (v : Option α)
    (h1 : (L.xmlUnmarshalError content {}).2 = none)
    (h2 : (L.xmlUnmarshalError content {}).1.Exception ≠ "") :
    (decodeError L resp content v).err =
      some (.errorf ("exception: " ++ (L.xmlUnmarshalError content {}).1.Exception
        ++ ", message: " ++ (L.xmlUnmarshalError content {}).1.Message)) := by
  unfold decodeError
  split
  · rename_i x e hx
    rw [hx] at h1
    simp at h1
  · rename_i x errorXml hx
    rw [hx] at h2 ⊢
    simp at h2
    simp [h2]

theorem decodeResponse_err_iff {σ α : Type} (L : Lib σ) (resp : Response) (content : Bytes)
    (returnValue : Option (Target α)) :
    (decodeResponse L resp content returnValue).err ≠ none ↔
      (content ≠ "" ∧ ¬ decodedIntoTarget returnValue content ∧
        ((∃ e, (L.xmlUnmarshalError content {}).2 = some e ∧ e ≠ LibError.EOF)
          ∨ ((L.xmlUnmarshalError content {}).2 = none ∧ (L.xmlUnmarshalError content {}).1.Exception ≠ ""))) := by
  unfold decodeResponse
  split
  · rename_i hlen
    have hne : content ≠ "" := (length_pos_iff_ne_empty content).1 hlen
    split
    · rename_i t
      split
      · rename_i v hv
        have hd : decodedIntoTarget (some t) content := ⟨t, rfl, by rw [hv]⟩
        simp [hd]
      · rename_i v e hv
        have hd : ¬ decodedIntoTarget (some t) content := by
          rintro ⟨t2, ht2, h2⟩
          cases ht2
          rw [hv] at h2
          simp at h2
        rw [decodeError_err_iff]
        simp [hne, hd]
    · have hd : ¬ decodedIntoTarget (none : Option (Target α)) content := by
        rintro ⟨t2, ht2, _⟩
        cases ht2
      rw [decodeError_err_iff]
      simp [hne, hd]
  · rename_i hlen
    have he : content = "" := by
      by_contra hc
      exact hlen ((length_pos_iff_ne_empty content).2 hc)
    simp [he]

theorem decodeResponse_exception {σ α : Type} (L : Lib σ) (resp : Response) (content : Bytes)
    (returnValue : Option (Target α))
    (h0 : content ≠ "") (hd : ¬ decodedIntoTarget returnValue content)
    (h1 : (L.xmlUnmarshalError content {}).2 = none)
    (h2 : (L.xmlUnmarshalError content {}).1.Exception ≠ "") :
    (decodeResponse L resp content returnValue).err =
      some (.errorf ("exception: " ++ (L.xmlUnmarshalError content {}).1.Exception
        ++ ", message: " ++ (L.xmlUnmarshalError content {}).1.Message)) := by
  unfold decodeResponse
  rw [if_pos ((length_pos_iff_ne_empty content).2 h0)]
  split
  · rename_i t
    split
    · rename_i v hv
      exact absurd ⟨t, rfl, by rw [hv]⟩ hd
    · exact decodeError_exception L resp content _ h1 h2
  · exact decodeError_exception L resp content _ h1 h2

/-- The verdict on a body does not look at the response it came with. -/
theorem decodeResponse_status_free {σ α : Type} (L : Lib σ) (resp resp2 : Response) (content : Bytes)
    (returnValue : Option (Target α)) :
    (decodeResponse L resp2 content returnValue).err = (decodeResponse L resp content returnValue).err
      ∧ (decodeResponse L resp2 content returnValue).value = (decodeResponse L resp content returnValue).value := by
  unfold decodeResponse decodeError
  split
  · split
    · split
      · simp
      · split
        · split <;> simp
        · split <;> simp
    · split
      · split <;> simp
      · split <;> simp
  · simp

theorem not_decodedIntoTarget_none {α : Type} (content : Bytes) :
    ¬ decodedIntoTarget (none : Option (Target α)) content := by
  rintro ⟨t, ht, _⟩
  cases ht

theorem errorf_exception_ne (x y : String) :
    GoError.errorf ("exception: " ++ x ++ ", message: " ++ y) ≠ GoError.errorf "file not found" := by
  intro h
  injection h with h
  have h2 := congrArg String.data h
  simp [String.data_append] at h2

theorem errorf_unmarshal_ne (x y : String) :
    GoError.errorf ("error during XML Unmarshal for response " ++ x ++ ". the error was " ++ y)
      ≠ GoError.errorf "file not found" := by
  intro h
  injection h with h
  have h2 := congrArg String.data h
  simp [String.data_append] at h2

theorem decodeError_err_ne {σ α : Type} (L : Lib σ) (resp : Response) (content : Bytes) (v : Option α) :
    (decodeError L resp content v).err ≠ some (.errorf "file not found") := by
  unfold decodeError
  split
  · split
    · simp
    · intro h
      injection h with h
      exact errorf_unmarshal_ne _ _ h
  · split
    · intro h
      injection h with h
      exact errorf_exception_ne _ _ h
    · simp

theorem decodeResponse_err_ne {σ α : Type} (L : Lib σ) (resp : Response) (content : Bytes)
    (returnValue : Option (Target α)) :
    (decodeResponse L resp content returnValue).err ≠ some (.errorf "file not found") := by
  unfold decodeResponse
  split
  · split
    · split
      · simp
      · exact decodeError_err_ne L resp content _
    · exact decodeError_err_ne L resp content _
  · simp

/-- A failure of the round trip is a library error, passed on unchanged. -/
theorem roundTrip_error_lib {σ : Type} (L : Lib σ) (c : Client) (request path : String)
    (body : Option Bytes) (headers : Option (List Header)) (w w1 : Net σ) (e : GoError)
    (h : roundTrip L c request path body headers w = (.error e, w1)) : ∃ l, e = .lib l := by
  unfold roundTrip at h
  split at h
  · injection h with h _
    injection h with h
    exact ⟨_, h.symm⟩
  · dsimp only at h
    split at h
    · injection h with h _
      injection h with h
      exact ⟨_, h.symm⟩
    · split at h
      · injection h with h _
        injection h with h
        exact ⟨_, h.symm⟩
      · split at h
        · injection h with h _
          injection h with h
          exact ⟨_, h.symm⟩
        · injection h with h _
          cases h

theorem sendRequest_err_ne {σ α : Type} (L : Lib σ) (c : Client) (request path : String)
    (body : Option Bytes) (returnValue : Option (Target α)) (headers : Option (List Header)) (w : Net σ) :
    (sendRequest L c request path body returnValue headers w).1.err ≠ some (.errorf "file not found") := by
  unfold sendRequest
  split
  · rename_i e w1 h
    obtain ⟨l, hl⟩ := roundTrip_error_lib L c request path body headers w w1 e h
    simp [hl]
  · exact decodeResponse_err_ne L _ _ returnValue

theorem hasStatus_some (resp : Response) (code : Int) : hasStatus (some resp) code = (resp.StatusCode == code) := rfl

theorem mkdir_of_roundTrip {σ : Type} (L : Lib σ) (c : Client) (P : String) (w w1 : Net σ)
    (resp : Response) (content : Bytes)
    (h : roundTrip L c "MKCOL" ("files/" ++ c.Username ++ "/" ++ P) none none w = (.ok (resp, content), w1)) :
    Mkdir L c P w = (if resp.StatusCode = 405 then .ret none
      else .ret (decodeResponse L resp content (none : Option (Target Unit))).err, w1) := by
  unfold Mkdir
  rw [sendRequest_of_roundTrip L c _ _ _ _ _ w w1 resp content h]
  simp only [(decodeResponse_resp L resp content (none : Option (Target Unit))).1]
  split <;> rfl

theorem decodeResponse_empty {σ α : Type} (L : Lib σ) (resp : Response) (returnValue : Option (Target α)) :
    (decodeResponse L resp "" returnValue).err = none := by
  unfold decodeResponse
  simp

/-- What a round trip adds to the request log: nothing, or the one request it sent. -/
theorem roundTrip_log {σ : Type} (L : Lib σ) (c : Client) (request path : String)
    (body : Option Bytes) (headers : Option (List Header)) (w : Net σ) :
    (roundTrip L c request path body headers w).2.log = w.log
    ∨ ∃ url, (roundTrip L c request path body headers w).2.log =
        w.log ++ [{ Method := request, URL := url, Body := body.getD "", AuthUser := c.Username,
                    AuthPassword := c.Password, Header := headers.getD [] }] := by
  unfold roundTrip
  split
  · exact Or.inl rfl
  · dsimp only
    split
    · exact Or.inl rfl
    · split
      · exact Or.inr ⟨_, rfl⟩
      · split
        · exact Or.inr ⟨_, rfl⟩
        · exact Or.inr ⟨_, rfl⟩

/-- A round trip whose path resolves and whose request can be built sends exactly one request. -/
theorem roundTrip_log_sent {σ : Type} (L : Lib σ) (c : Client) (request path : String)
    (body : Option Bytes) (headers : Option (List Header)) (w : Net σ) (folderUrl : URL)
    (hparse : L.urlParse path = .ok folderUrl)
    (hnew : L.newRequest request (L.resolveReference c.Url folderUrl).String = none) :
    (roundTrip L c request path body headers w).2.log =
        w.log ++ [{ Method := request, URL := (L.resolveReference c.Url folderUrl).String,
                    Body := body.getD "", AuthUser := c.Username,
                    AuthPassword := c.Password, Header := headers.getD [] }] := by
  unfold roundTrip
  simp only [hparse, hnew]
  split
  · rfl
  · split <;> rfl

theorem sendRequest_world {σ α : Type} (L : Lib σ) (c : Client) (request path : String)
    (body : Option Bytes) (returnValue : Option (Target α)) (headers : Option (List Header)) (w : Net σ) :
    (sendRequest L c request path body returnValue headers w).2 = (roundTrip L c request path body headers w).2 := by
  unfold sendRequest
  split
  · rename_i h
    rw [h]
  · rename_i h
    rw [h]

theorem decodeResponse_none_err_iff {σ : Type} (L : Lib σ) (resp : Response) (content : Bytes) :
    (decodeResponse L resp content (none : Option (Target Unit))).err ≠ none ↔ readsAsFault L content := by
  rw [decodeResponse_err_iff]
  unfold readsAsFault
  have hex : (∃ e, (L.xmlUnmarshalError content {}).2 = some e ∧ e ≠ LibError.EOF) ↔
      ((L.xmlUnmarshalError content {}).2 ≠ none ∧ (L.xmlUnmarshalError content {}).2 ≠ some LibError.EOF) := by
    cases (L.xmlUnmarshalError content {}).2 with
    | none => simp
    | some e => simp
  rw [hex]
  simp [not_decodedIntoTarget_none]

theorem upload_of_roundTrip {σ : Type} (L : Lib σ) (c : Client) (src : Bytes) (dest : String)
    (w w1 : Net σ) (destUrl : URL) (resp : Response) (content : Bytes)
    (hparse : L.urlParse ("files/" ++ c.Username ++ "/" ++ dest) = .ok destUrl)
    (h : roundTrip L c "PUT" (L.resolveReference c.Url destUrl).String (some src) none w
          = (.ok (resp, content), w1)) :
    Upload L c src dest w = ((decodeResponse L resp content (none : Option (Target Unit))).err, w1) := by
  unfold Upload
  simp only [hparse]
  rw [sendRequest_of_roundTrip L c _ _ _ _ _ w w1 resp content h]

theorem download_of_roundTrip {σ : Type} (L : Lib σ) (c : Client) (path : String)
    (w w1 : Net σ) (pathUrl : URL) (resp : Response) (content : Bytes)
    (hparse : L.urlParse ("files/" ++ c.Username ++ "/" ++ path) = .ok pathUrl)
    (h : roundTrip L c "GET" (L.resolveReference c.Url pathUrl).String none none w
          = (.ok (resp, content), w1)) :
    Download L c path w =
      (match (decodeResponse L resp content (none : Option (Target Unit))).err with
        | some e => (none, some e)
        | none => (some content, none), w1) := by
  unfold Download
  simp only [hparse]
  rw [sendRequest_of_roundTrip L c _ _ _ _ _ w w1 resp content h]
  simp only [(decodeResponse_resp L resp content (none : Option (Target Unit))).2]
  split <;> rfl

theorem hasDisplayName_iff (displayName : String) (ps : List SystemTagProperty) :
    hasDisplayName displayName ps = true ↔ ∃ p ∈ ps, p.DisplayName = displayName := by
  induction ps with
  | nil => simp [hasDisplayName]
  | cons p rest ih =>
    unfold hasDisplayName
    by_cases hp : p.DisplayName = displayName
    · simp [hp]
    · simp [hp, ih]

theorem findResponse_none (displayName : String) (rs : List TagPropResponse)
    (h : ∀ x ∈ rs, ∀ p ∈ x.Properties.getD [], p.DisplayName ≠ displayName) :
    findResponse displayName rs = none := by
  induction rs with
  | nil => rfl
  | cons r rest ih =>
    unfold findResponse
    have hr : ¬ hasDisplayName displayName (r.Properties.getD []) = true := by
      rw [hasDisplayName_iff]
      rintro ⟨p, hp, hpd⟩
      exact h r (List.mem_cons_self r rest) p hp hpd
    rw [if_neg hr]
    exact ih (fun x hx => h x (List.mem_cons_of_mem r hx))

theorem findResponse_first (displayName : String) (pre : List TagPropResponse) (r : TagPropResponse)
    (post : List TagPropResponse)
    (hpre : ∀ x ∈ pre, ∀ p ∈ x.Properties.getD [], p.DisplayName ≠ displayName)
    (hr : ∃ p ∈ r.Properties.getD [], p.DisplayName = displayName) :
    findResponse displayName (pre ++ r :: post) = some r := by
  induction pre with
  | nil =>
    simp only [List.nil_append]
    unfold findResponse
    rw [if_pos ((hasDisplayName_iff displayName _).2 hr)]
  | cons x rest ih =>
    simp only [List.cons_append]
    unfold findResponse
    have hx : ¬ hasDisplayName displayName (x.Properties.getD []) = true := by
      rw [hasDisplayName_iff]
      rintro ⟨p, hp, hpd⟩
      exact hpre x (List.mem_cons_self x rest) p hp hpd
    rw [if_neg hx]
    exact ih (fun y hy => hpre y (List.mem_cons_of_mem x hy))

/-- `GetSystemTags` returns a listing exactly when it returns no error. -/
theorem getSystemTags_shape {σ : Type} (L : Lib σ) (c : Client) (w : Net σ) :
    (∃ tags, (GetSystemTags L c w).1 = (some tags, none)) ∨ (∃ e, (GetSystemTags L c w).1 = (none, some e)) := by
  unfold GetSystemTags
  split
  · exact Or.inr ⟨_, rfl⟩
  · dsimp only
    split
    · exact Or.inr ⟨_, rfl⟩
    · exact Or.inl ⟨_, rfl⟩

theorem scanProperties_append (name : String) (init : SystemTagProperty) (a b : List SystemTagProperty) :
    scanProperties name init (a ++ b) = scanProperties name (scanProperties name init a) b := by
  induction a generalizing init with
  | nil => rfl
  | cons p rest ih =>
    simp only [List.cons_append, scanProperties]
    exact ih _

theorem scanProperties_no_match (name : String) (init : SystemTagProperty) (ps : List SystemTagProperty)
    (h : ∀ q ∈ ps, q.DisplayName ≠ name) : scanProperties name init ps = init := by
  induction ps generalizing init with
  | nil => rfl
  | cons p rest ih =>
    unfold scanProperties
    rw [if_neg (h p (List.mem_cons_self p rest))]
    exact ih init (fun q hq => h q (List.mem_cons_of_mem p hq))

theorem scanResponses_eq (name : String) (init : SystemTagProperty) (rs : List TagPropResponse) :
    scanResponses name init rs = scanProperties name init (allTagProperties rs) := by
  induction rs generalizing init with
  | nil => rfl
  | cons r rest ih =>
    unfold scanResponses allTagProperties
    rw [scanProperties_append]
    exact ih _

/-- The scan of `AddTag` ends on the last property that carries the name. -/
theorem scanResponses_last (name : String) (init : SystemTagProperty) (rs : List TagPropResponse)
    (pre : List SystemTagProperty) (p : SystemTagProperty) (post : List SystemTagProperty)
    (hsplit : allTagProperties rs = pre ++ p :: post)
    (hp : p.DisplayName = name) (hpost : ∀ q ∈ post, q.DisplayName ≠ name) :
    scanResponses name init rs = p := by
  rw [scanResponses_eq, hsplit, scanProperties_append]
  unfold scanProperties
  rw [if_pos hp]
  exact scanProperties_no_match name p post hpost

theorem addSystemTag_conflict {σ : Type} (L : Lib σ) (c : Client) (tag : Tag) (w w1 : Net σ)
    (pathUrl : URL) (content : Bytes)
    (hurl : L.urlParse "systemtags/" = .ok pathUrl)
    (h : roundTrip L c "POST" (L.resolveReference c.Url pathUrl).String (marshalled (L.jsonMarshalTag tag))
          (some [{ Name := "Content-Type", Value := "application/json" }]) w
        = (.ok ({ StatusCode := 409 }, content), w1)) :
    AddSystemTag L c tag w = (.ret (false, none), w1) := by
  unfold AddSystemTag
  simp only [hurl]
  rw [sendRequest_of_roundTrip L c _ _ _ _ _ w w1 _ content h]
  simp [(decodeResponse_resp L _ content (none : Option (Target Unit))).1]

/-! ## The claims -/

/-- C1. For a round trip that completes (the response arrived and its body was
read), `sendRequest` returns an error exactly when the body is non-empty, was
not decoded without error into a supplied target, and either the decode as an
`Error` envelope fails with something other than `io.EOF` or it yields a
non-empty `Exception`; in the latter case the error reads
`exception: <Exception>, message: <Message>`.  The response and the whole body
are returned in every case, and a round trip that ends with the same body under
another status (or for another request) gets the same verdict. -/
theorem sendRequest_error_iff {σ α : Type} (L : Lib σ) (c : Client) (request path : String)
    (body : Option Bytes) (returnValue : Option (Target α)) (headers : Option (List Header))
    (w w1 : Net σ) (resp : Response) (content : Bytes)
    (h : roundTrip L c request path body headers w = (.ok (resp, content), w1)) :
    ((sendRequest L c request path body returnValue headers w).1.err ≠ none ↔
      (content ≠ "" ∧ ¬ decodedIntoTarget returnValue content ∧
        ((∃ e, (L.xmlUnmarshalError content {}).2 = some e ∧ e ≠ LibError.EOF)
          ∨ ((L.xmlUnmarshalError content {}).2 = none ∧ (L.xmlUnmarshalError content {}).1.Exception ≠ ""))))
    ∧ (content ≠ "" → ¬ decodedIntoTarget returnValue content →
        (L.xmlUnmarshalError content {}).2 = none → (L.xmlUnmarshalError content {}).1.Exception ≠ "" →
        (sendRequest L c request path body returnValue headers w).1.err =
          some (.errorf ("exception: " ++ (L.xmlUnmarshalError content {}).1.Exception
            ++ ", message: " ++ (L.xmlUnmarshalError content {}).1.Message)))
    ∧ (sendRequest L c request path body returnValue headers w).1.resp = some resp
    ∧ (sendRequest L c request path body returnValue headers w).1.content = some content
    ∧ (∀ (request2 path2 : String) (body2 : Option Bytes) (headers2 : Option (List Header))
        (w2 w3 : Net σ) (resp2 : Response),
        roundTrip L c request2 path2 body2 headers2 w2 = (.ok (resp2, content), w3) →
        (sendRequest L c request2 path2 body2 returnValue headers2 w2).1.err
            = (sendRequest L c request path body returnValue headers w).1.err
          ∧ (sendRequest L c request2 path2 body2 returnValue headers2 w2).1.content
            = (sendRequest L c request path body returnValue headers w).1.content
          ∧ (sendRequest L c request2 path2 body2 returnValue headers2 w2).1.value
            = (sendRequest L c request path body returnValue headers w).1.value) := by
  rw [sendRequest_of_roundTrip L c request path body returnValue headers w w1 resp content h]
  refine ⟨decodeResponse_err_iff L resp content returnValue, ?_, (decodeResponse_resp L resp content returnValue).1,
    (decodeResponse_resp L resp content returnValue).2, ?_⟩
  · intro h0 hd h1 h2
    exact decodeResponse_exception L resp content returnValue h0 hd h1 h2
  · intro request2 path2 body2 headers2 w2 w3 resp2 h2
    rw [sendRequest_of_roundTrip L c request2 path2 body2 returnValue headers2 w2 w3 resp2 content h2]
    refine ⟨(decodeResponse_status_free L resp resp2 content returnValue).1, ?_,
      (decodeResponse_status_free L resp resp2 content returnValue).2⟩
    rw [(decodeResponse_resp L resp2 content returnValue).2, (decodeResponse_resp L resp content returnValue).2]

set_option maxRecDepth 100000 in
/-- C1, at a concrete input: a `404` whose body is Nextcloud's fault document. -/
theorem sendRequest_error_iff_witness :
    roundTrip (demoLib scriptDo) demoClient "GET" "files/admin/none.txt" none none (start [reply 404 notFoundXml])
        = (.ok ({ StatusCode := 404 }, notFoundXml),
           { server := [], log := [{ Method := "GET", URL := "https://cloud.example.com/remote.php/dav/files/admin/none.txt",
                                     Body := "", AuthUser := "admin", AuthPassword := "secret", Header := [] }] })
    ∧ (sendRequest (demoLib scriptDo) demoClient "GET" "files/admin/none.txt" none (none : Option (Target Unit)) none
        (start [reply 404 notFoundXml])).1.err
        = some (.errorf "exception: NotFound, message: File not found") :=
  ⟨rfl, (sendRequest_error_iff (demoLib scriptDo) demoClient "GET" "files/admin/none.txt" none
      (none : Option (Target Unit)) none (start [reply 404 notFoundXml]) _ { StatusCode := 404 } notFoundXml rfl).2.1
      (by decide) (not_decodedIntoTarget_none _) (by decide) (by decide)⟩

/-- C3. Whenever the PROPFIND sent by `ListDirectory` is answered with status 404
(the response arrived and its body was read), `ListDirectory` returns a nil
listing and the error `file not found`, whatever the body holds and whatever
verdict the transport helper reached on it; and no call of the transport helper
ever returns that error. -/
theorem listDirectory_not_found {σ : Type} (L : Lib σ) (c : Client) (path : String) (depth : Int)
    (w w1 : Net σ) (destUrl : URL) (content : Bytes)
    (hparse : L.urlParse ("files/" ++ c.Username ++ "/" ++ path) = .ok destUrl)
    (h : roundTrip L c "PROPFIND" (L.resolveReference c.Url destUrl).String
          (marshalled (L.xmlMarshalProperties CreateProperties))
          (some [{ Name := "Depth", Value := toString depth }]) w
        = (.ok ({ StatusCode := 404 }, content), w1)) :
    ListDirectory L c path depth w = ((none, some (.errorf "file not found")), w1)
    ∧ (∀ (α : Type) (c2 : Client) (request2 path2 : String) (body2 : Option Bytes)
        (returnValue2 : Option (Target α)) (headers2 : Option (List Header)) (w2 : Net σ),
        (sendRequest L c2 request2 path2 body2 returnValue2 headers2 w2).1.err
          ≠ some (.errorf "file not found")) := by
  constructor
  · unfold ListDirectory
    simp only [hparse]
    rw [sendRequest_of_roundTrip L c _ _ _ _ _ w w1 _ content h]
    simp [(decodeResponse_resp L _ content _).1, hasStatus_some]
  · intro α c2 request2 path2 body2 returnValue2 headers2 w2
    exact sendRequest_err_ne L c2 request2 path2 body2 returnValue2 headers2 w2

set_option maxRecDepth 100000 in
/-- C3, at a concrete input: the server answers 404 with its fault document, on
which the transport helper reports an error of its own; `ListDirectory` returns
`file not found`. -/
theorem listDirectory_not_found_witness :
    (ListDirectory (demoLib scriptDo) demoClient "Missing/" 1 (start [reply 404 notFoundXml])).1
      = (none, some (.errorf "file not found")) :=
  congrArg Prod.fst (listDirectory_not_found (demoLib scriptDo) demoClient "Missing/" 1
    (start [reply 404 notFoundXml]) _ { String := "files/admin/Missing/" } notFoundXml rfl rfl).1

/-- C4. Whenever the MKCOL sent by `Mkdir` is answered with status 405, `Mkdir`
returns no error, whatever the body holds.  Hence, when a first MKCOL is
answered `201 Created` with an empty body and a second one is answered 405,
two calls of `Mkdir` in a row both return no error. -/
theorem mkdir_idempotent {σ : Type} (L : Lib σ) (c : Client) (P : String) :
    (∀ (w w1 : Net σ) (content : Bytes),
      roundTrip L c "MKCOL" ("files/" ++ c.Username ++ "/" ++ P) none none w
        = (.ok ({ StatusCode := 405 }, content), w1) →
      Mkdir L c P w = (.ret none, w1))
    ∧ (∀ (w0 w1 w2 : Net σ) (content : Bytes),
      roundTrip L c "MKCOL" ("files/" ++ c.Username ++ "/" ++ P) none none w0
        = (.ok ({ StatusCode := 201 }, ""), w1) →
      roundTrip L c "MKCOL" ("files/" ++ c.Username ++ "/" ++ P) none none w1
        = (.ok ({ StatusCode := 405 }, content), w2) →
      Mkdir L c P w0 = (.ret none, w1) ∧ Mkdir L c P (Mkdir L c P w0).2 = (.ret none, w2)) := by
  have h405 : ∀ (w w1 : Net σ) (content : Bytes),
      roundTrip L c "MKCOL" ("files/" ++ c.Username ++ "/" ++ P) none none w
        = (.ok ({ StatusCode := 405 }, content), w1) →
      Mkdir L c P w = (.ret none, w1) := by
    intro w w1 content h
    rw [mkdir_of_roundTrip L c P w w1 _ content h]
    simp
  refine ⟨h405, ?_⟩
  intro w0 w1 w2 content h1 h2
  have hfirst : Mkdir L c P w0 = (.ret none, w1) := by
    rw [mkdir_of_roundTrip L c P w0 w1 _ "" h1]
    simp [decodeResponse_empty]
  refine ⟨hfirst, ?_⟩
  rw [hfirst]
  exact h405 w1 w2 content h2

set_option maxRecDepth 100000 in
/-- C4, at a concrete input: the storing server creates `Test` on the first
MKCOL and answers the second with 405 and a fault document; both calls of
`Mkdir` return no error. -/
theorem mkdir_idempotent_witness :
    (Mkdir (demoLib storeDo) demoClient "Test" (start { files := [], dirs := [] })).1 = .ret none
    ∧ (Mkdir (demoLib storeDo) demoClient "Test"
        (Mkdir (demoLib storeDo) demoClient "Test" (start { files := [], dirs := [] })).2).1 = .ret none
    ∧ (roundTrip (demoLib storeDo) demoClient "MKCOL" "files/admin/Test" none none
        (Mkdir (demoLib storeDo) demoClient "Test" (start { files := [], dirs := [] })).2).1
        = .ok ({ StatusCode := 405 }, alreadyExistsXml) :=
  have h := (mkdir_idempotent (demoLib storeDo) demoClient "Test").2
    (start { files := [], dirs := [] }) _ _ alreadyExistsXml rfl rfl
  ⟨congrArg Prod.fst h.1, congrArg Prod.fst h.2, rfl⟩

set_option maxRecDepth 100000 in
/-- C5, at failing inputs: when the MKCOL gets no reply, when the reply's body
cannot be read, and when the path does not resolve, the transport helper
returns an error and no response, and `Mkdir` panics on `resp.StatusCode`
instead of returning that error. -/
theorem mkdir_panics_without_response :
    (sendRequest (demoLib scriptDo) demoClient "MKCOL" "files/admin/Test" none (none : Option (Target Unit)) none
        (start [noReply])).1
      = { resp := none, content := none, value := none,
          err := some (.lib (.other "net/http" "dial tcp: connection refused")) }
    ∧ (Mkdir (demoLib scriptDo) demoClient "Test" (start [noReply])).1 = .panic nilDeref
    ∧ (Mkdir (demoLib scriptDo) demoClient "Test" (start [brokenReply 201])).1 = .panic nilDeref
    ∧ (Mkdir (demoLib scriptDo) demoClient "Te\nst" (start [reply 201 ""])).1 = .panic nilDeref := by
  decide

set_option maxRecDepth 100000 in
/-- C6, at a failing input: when the POST gets no reply the transport helper
returns an error and no response, and `AddSystemTag` panics on
`resp.StatusCode` instead of returning `(false, err)`. -/
theorem addSystemTag_panics_without_response :
    (sendRequest (demoLib scriptDo) demoClient "POST" "https://cloud.example.com/remote.php/dav/systemtags/"
        (marshalled ((demoLib scriptDo).jsonMarshalTag testTag)) (none : Option (Target Unit))
        (some [{ Name := "Content-Type", Value := "application/json" }]) (start [noReply])).1
      = { resp := none, content := none, value := none,
          err := some (.lib (.other "net/http" "dial tcp: connection refused")) }
    ∧ (AddSystemTag (demoLib scriptDo) demoClient testTag (start [noReply])).1 = .panic nilDeref := by
  decide

/-- C9. `Exists` makes one call of the transport helper, a PROPFIND with nil body,
nil target and nil headers, and returns true exactly when that call returns no
error.  On the wire this is at most one request (exactly one when the path
resolves and the request can be built), a PROPFIND with an empty body and no
header added.  The status code plays no part: for a reply that was read in
full the result is the helper's verdict on the body alone. -/
theorem exists_iff_no_error {σ : Type} (L : Lib σ) (c : Client) (path : String) (w : Net σ) :
    ((Exists L c path w).1 = true ↔
      (sendRequest L c "PROPFIND" ("files/" ++ c.Username ++ "/" ++ path) none
        (none : Option (Target Unit)) none w).1.err = none)
    ∧ (Exists L c path w).2 =
        (sendRequest L c "PROPFIND" ("files/" ++ c.Username ++ "/" ++ path) none
          (none : Option (Target Unit)) none w).2
    ∧ ((Exists L c path w).2.log = w.log
        ∨ ∃ url, (Exists L c path w).2.log = w.log ++
            [{ Method := "PROPFIND", URL := url, Body := "", AuthUser := c.Username,
               AuthPassword := c.Password, Header := [] }])
    ∧ (∀ folderUrl, L.urlParse ("files/" ++ c.Username ++ "/" ++ path) = .ok folderUrl →
        L.newRequest "PROPFIND" (L.resolveReference c.Url folderUrl).String = none →
        (Exists L c path w).2.log = w.log ++
            [{ Method := "PROPFIND", URL := (L.resolveReference c.Url folderUrl).String, Body := "",
               AuthUser := c.Username, AuthPassword := c.Password, Header := [] }])
    ∧ (∀ (w1 : Net σ) (resp resp2 : Response) (content : Bytes),
        roundTrip L c "PROPFIND" ("files/" ++ c.Username ++ "/" ++ path) none none w = (.ok (resp, content), w1) →
        (Exists L c path w).1 = ((decodeResponse L resp2 content (none : Option (Target Unit))).err == none)) := by
  have hw : (Exists L c path w).2 =
        (sendRequest L c "PROPFIND" ("files/" ++ c.Username ++ "/" ++ path) none
          (none : Option (Target Unit)) none w).2 := rfl
  refine ⟨?_, hw, ?_, ?_, ?_⟩
  · unfold Exists
    simp
  · rw [hw, sendRequest_world]
    exact roundTrip_log L c "PROPFIND" _ none none w
  · intro folderUrl hparse hnew
    rw [hw, sendRequest_world]
    exact roundTrip_log_sent L c "PROPFIND" _ none none w folderUrl hparse hnew
  · intro w1 resp resp2 content h
    unfold Exists
    rw [sendRequest_of_roundTrip L c _ _ _ _ _ w w1 resp content h]
    simp only [(decodeResponse_status_free L resp resp2 content (none : Option (Target Unit))).1]

set_option maxRecDepth 100000 in
/-- C9, at a concrete input: the directory of `TestExists` is there, the server
answers the PROPFIND with a multistatus, and `Exists` returns true after one
PROPFIND without body or headers. -/
theorem exists_iff_no_error_witness :
    (Exists (demoLib scriptDo) demoClient "Test" (start [reply 207 dirListingXml])).1 = true
    ∧ (Exists (demoLib scriptDo) demoClient "Test" (start [reply 207 dirListingXml])).2.log =
        [{ Method := "PROPFIND", URL := "https://cloud.example.com/remote.php/dav/files/admin/Test", Body := "",
           AuthUser := "admin", AuthPassword := "secret", Header := [] }]
    ∧ (Exists (demoLib scriptDo) demoClient "Test" (start [reply 207 dirListingXml])).1
        = ((decodeResponse (demoLib scriptDo) { StatusCode := 500 } dirListingXml (none : Option (Target Unit))).err == none) :=
  have h := exists_iff_no_error (demoLib scriptDo) demoClient "Test" (start [reply 207 dirListingXml])
  ⟨h.1.2 (by decide), h.2.2.2.1 { String := "files/admin/Test" } rfl rfl,
    h.2.2.2.2 _ { StatusCode := 207 } { StatusCode := 500 } dirListingXml rfl⟩

set_option maxRecDepth 100000 in
/-- C2 fails as stated: the storing server keeps the body of the PUT and answers
the GET with exactly that content, yet `Download` returns nil and an error when
the content is an XML document with a non-empty `exception` element, and also
when it is the cut-off document `<a>`. -/
theorem download_after_upload_counterexample :
    (Upload (demoLib storeDo) demoClient faultDocument "Test/test.txt" (start { files := [], dirs := [] })).1 = none
    ∧ (roundTrip (demoLib storeDo) demoClient "GET" "https://cloud.example.com/remote.php/dav/files/admin/Test/test.txt"
        none none (Upload (demoLib storeDo) demoClient faultDocument "Test/test.txt" (start { files := [], dirs := [] })).2).1
        = .ok ({ StatusCode := 200 }, faultDocument)
    ∧ (Download (demoLib storeDo) demoClient "Test/test.txt"
        (Upload (demoLib storeDo) demoClient faultDocument "Test/test.txt" (start { files := [], dirs := [] })).2).1
        = (none, some (.errorf "exception: Boom, message: stored by the user"))
    ∧ (Download (demoLib storeDo) demoClient "Test/test.txt"
        (Upload (demoLib storeDo) demoClient "<a>" "Test/test.txt" (start { files := [], dirs := [] })).2).1
        = (none, some (.errorf
            "error during XML Unmarshal for response <a>. the error was XML syntax error on line 1: unexpected EOF")) :=
  ⟨by decide, rfl, by decide, by decide⟩

/-- C2, amended. When the path resolves, the PUT sent by `Upload` is answered and
the GET sent by `Download` afterwards is answered with exactly `C`, then
`Download` returns exactly `C` with no error provided `C` does not read as a
fault (it is empty, its decode as an `Error` envelope ends with `io.EOF`, or it
decodes with an empty `Exception`); for every other `C` it returns nil and an
error.  `Upload` returns no error when the PUT's reply has an empty body. -/
theorem download_after_upload {σ : Type} (L : Lib σ) (c : Client) (C : Bytes) (P : String)
    (w w1 w2 : Net σ) (destUrl : URL) (r1 r2 : Response) (b1 : Bytes)
    (hparse : L.urlParse ("files/" ++ c.Username ++ "/" ++ P) = .ok destUrl)
    (hput : roundTrip L c "PUT" (L.resolveReference c.Url destUrl).String (some C) none w = (.ok (r1, b1), w1))
    (hget : roundTrip L c "GET" (L.resolveReference c.Url destUrl).String none none w1 = (.ok (r2, C), w2)) :
    (Upload L c C P w).2 = w1
    ∧ (b1 = "" → (Upload L c C P w).1 = none)
    ∧ (¬ readsAsFault L C → Download L c P (Upload L c C P w).2 = ((some C, none), w2))
    ∧ (readsAsFault L C → ∃ e, Download L c P (Upload L c C P w).2 = ((none, some e), w2)) := by
  have hup := upload_of_roundTrip L c C P w w1 destUrl r1 b1 hparse hput
  have hdown := download_of_roundTrip L c P w1 w2 destUrl r2 C hparse hget
  have hverdict := decodeResponse_none_err_iff L r2 C
  rw [hup]
  refine ⟨rfl, ?_, ?_, ?_⟩
  · intro hb
    simp [hb, decodeResponse_empty]
  · intro hf
    rw [hdown]
    have hnone : (decodeResponse L r2 C (none : Option (Target Unit))).err = none := by
      by_contra hc
      exact hf (hverdict.1 hc)
    rw [hnone]
  · intro hf
    rw [hdown]
    cases herr : (decodeResponse L r2 C (none : Option (Target Unit))).err with
    | none => exact absurd herr (hverdict.2 hf)
    | some e => exact ⟨e, rfl⟩

set_option maxRecDepth 100000 in
/-- C2 amended, at the input of `TestDownloadUpload`: `Hello World!` and a line
feed, stored under `Test/test.txt`, come back unchanged. -/
theorem download_after_upload_witness :
    (Upload (demoLib storeDo) demoClient "Hello World!\n" "Test/test.txt" (start { files := [], dirs := [] })).1 = none
    ∧ (Download (demoLib storeDo) demoClient "Test/test.txt"
        (Upload (demoLib storeDo) demoClient "Hello World!\n" "Test/test.txt" (start { files := [], dirs := [] })).2).1
        = (some "Hello World!\n", none) :=
  have h := download_after_upload (demoLib storeDo) demoClient "Hello World!\n" "Test/test.txt"
    (start { files := [], dirs := [] }) _ _ { String := "files/admin/Test/test.txt" }
    { StatusCode := 201 } { StatusCode := 200 } "" rfl rfl rfl
  ⟨h.2.1 rfl, congrArg Prod.fst (h.2.2.1 (by decide))⟩

/-- C8. When the tag listing succeeds, `FindSystemTag D` returns, with no error,
the first response in listing order that has a property whose display name is
`D`, and nil with no error when no response has one; when the listing fails it
returns nil and the listing's error. -/
theorem findSystemTag_first_match {σ : Type} (L : Lib σ) (c : Client) (D : String) (w : Net σ) :
    (∀ (t : Option MultiStatusTagResponse) (w1 : Net σ), GetSystemTags L c w = ((t, none), w1) →
      ∃ tags, t = some tags
        ∧ (∀ (pre : List TagPropResponse) (r : TagPropResponse) (post : List TagPropResponse),
            tags.Responses.getD [] = pre ++ r :: post →
            (∀ x ∈ pre, ∀ p ∈ x.Properties.getD [], p.DisplayName ≠ D) →
            (∃ p ∈ r.Properties.getD [], p.DisplayName = D) →
            FindSystemTag L c D w = (.ret (some r, none), w1))
        ∧ ((∀ x ∈ tags.Responses.getD [], ∀ p ∈ x.Properties.getD [], p.DisplayName ≠ D) →
            FindSystemTag L c D w = (.ret (none, none), w1)))
    ∧ (∀ (t : Option MultiStatusTagResponse) (e : GoError) (w1 : Net σ),
        GetSystemTags L c w = ((t, some e), w1) → FindSystemTag L c D w = (.ret (none, some e), w1)) := by
  constructor
  · intro t w1 h
    rcases getSystemTags_shape L c w with ⟨tags, ht⟩ | ⟨e, he⟩
    · rw [h] at ht
      injection ht with ht _
      subst ht
      refine ⟨tags, rfl, ?_, ?_⟩
      · intro pre r post hsplit hpre hr
        unfold FindSystemTag
        rw [h]
        simp only []
        rw [hsplit, findResponse_first D pre r post hpre hr]
      · intro hnone
        unfold FindSystemTag
        rw [h]
        simp only []
        rw [findResponse_none D _ hnone]
    · rw [h] at he
      injection he with _ he
      cases he
  · intro t e w1 h
    unfold FindSystemTag
    rw [h]
    cases t <;> rfl

set_option maxRecDepth 100000 in
/-- C8, at a concrete input: in a listing where `Test123` appears in two
responses, `FindSystemTag` returns the first of them. -/
theorem findSystemTag_first_match_witness :
    (FindSystemTag (demoLib scriptDo) demoClient "Test123" (start [reply 207 tagListingTwiceXml])).1
      = .ret (some { XMLName := { Space := "DAV:", Local := "response" }, Href := "/remote.php/dav/systemtags/7",
                     Properties := some [{ Id := "7", DisplayName := "Test123" }] }, none)
    ∧ (FindSystemTag (demoLib scriptDo) demoClient "Other" (start [reply 207 tagListingTwiceXml])).1
      = .ret (none, none)
    ∧ (FindSystemTag (demoLib scriptDo) demoClient "Test123" (start [noReply])).1
      = .ret (none, some (.lib (.other "net/http" "dial tcp: connection refused"))) :=
  have h := (findSystemTag_first_match (demoLib scriptDo) demoClient "Test123"
    (start [reply 207 tagListingTwiceXml])).1 (some (demoUnmarshalTags tagListingTwiceXml {}).1) _ rfl
  have h2 := (findSystemTag_first_match (demoLib scriptDo) demoClient "Other"
    (start [reply 207 tagListingTwiceXml])).1 (some (demoUnmarshalTags tagListingTwiceXml {}).1) _ rfl
  ⟨h.elim (fun tags ht => by
      obtain ⟨heq, hfirst, _⟩ := ht
      injection heq with heq
      subst heq
      exact congrArg Prod.fst (hfirst [] _ [_] rfl (by simp) ⟨_, List.mem_cons_self _ _, rfl⟩)),
   h2.elim (fun tags ht => by
      obtain ⟨heq, _, hnone⟩ := ht
      injection heq with heq
      subst heq
      exact congrArg Prod.fst (hnone (by decide))),
   congrArg Prod.fst ((findSystemTag_first_match (demoLib scriptDo) demoClient "Test123" (start [noReply])).2
      none _ _ rfl)⟩

set_option maxRecDepth 100000 in
/-- C7 fails as stated: the POST is answered 409, the depth-0 listing has one
response with one property, the tag listing holds `Test123` with id 7, and the
server's next reply is a 409; but the listing holds `Test123` once more,
further down and with an empty id, and `AddTag` returns an error. -/
theorem addTag_again_counterexample :
    (AddSystemTag (demoLib scriptDo) demoClient testTag (secondAddTag tagListingTwiceXml)).1 = .ret (false, none)
    ∧ (ListDirectory (demoLib scriptDo) demoClient "Test/test.txt" 0
        (AddSystemTag (demoLib scriptDo) demoClient testTag (secondAddTag tagListingTwiceXml)).2).1
        = (some (demoUnmarshalDir dirListingXml {}).1, none)
    ∧ (GetSystemTags (demoLib scriptDo) demoClient
        (ListDirectory (demoLib scriptDo) demoClient "Test/test.txt" 0
          (AddSystemTag (demoLib scriptDo) demoClient testTag (secondAddTag tagListingTwiceXml)).2).2).1
        = (some (demoUnmarshalTags tagListingTwiceXml {}).1, none)
    ∧ ({ Id := "7", DisplayName := "Test123" } : SystemTagProperty)
        ∈ allTagProperties ((demoUnmarshalTags tagListingTwiceXml {}).1.Responses.getD [])
    ∧ (GetSystemTags (demoLib scriptDo) demoClient
        (ListDirectory (demoLib scriptDo) demoClient "Test/test.txt" 0
          (AddSystemTag (demoLib scriptDo) demoClient testTag (secondAddTag tagListingTwiceXml)).2).2).2.server
        = [reply 409 conflictXml]
    ∧ (AddTag (demoLib scriptDo) demoClient "Test/test.txt" testTag (secondAddTag tagListingTwiceXml)).1
        = .ret (false, some (.errorf "could not find system tag with name Test123")) :=
  ⟨by decide, by decide, by decide, by decide, rfl, by decide⟩

/-- C7, amended. Let the POST of the tag be answered 409; let the depth-0 listing
of the path succeed with a first response that has at least one property; let
the tag listing succeed, and let the last property in it whose display name is
the tag's name have a non-empty id; let the association PUT (for the file id of
the first property of the first response and that tag id) be answered 409.
Then `AddTag` returns `(false, nil)`. -/
theorem addTag_again {σ : Type} (L : Lib σ) (c : Client) (path : String) (tag : Tag)
    (w w1 w2 w3 w4 : Net σ) (pathUrl : URL) (b1 b4 : Bytes)
    (file : MultiStatusResponse) (first : PropResponse) (others : List PropResponse)
    (prop : Property) (props : List Property)
    (tags : MultiStatusTagResponse) (pre : List SystemTagProperty) (found : SystemTagProperty)
    (post : List SystemTagProperty)
    (hurl : L.urlParse "systemtags/" = .ok pathUrl)
    (hpost : roundTrip L c "POST" (L.resolveReference c.Url pathUrl).String (marshalled (L.jsonMarshalTag tag))
        (some [{ Name := "Content-Type", Value := "application/json" }]) w
      = (.ok ({ StatusCode := 409 }, b1), w1))
    (hlist : ListDirectory L c path 0 w1 = ((some file, none), w2))
    (hresponses : file.Responses = some (first :: others))
    (hprops : first.Properties = some (prop :: props))
    (htags : GetSystemTags L c w2 = ((some tags, none), w3))
    (hsplit : allTagProperties (tags.Responses.getD []) = pre ++ found :: post)
    (hname : found.DisplayName = tag.Name)
    (hlast : ∀ q ∈ post, q.DisplayName ≠ tag.Name)
    (hid : found.Id ≠ "")
    (hput : roundTrip L c "PUT" ("systemtags-relations/files/" ++ prop.FileId ++ "/" ++ found.Id)
        (marshalled (L.jsonMarshalTag tag))
        (some [{ Name := "Content-Type", Value := "application/json" }]) w3
      = (.ok ({ StatusCode := 409 }, b4), w4)) :
    AddTag L c path tag w = (.ret (false, none), w4) := by
  unfold AddTag
  rw [addSystemTag_conflict L c tag w w1 pathUrl b1 hurl hpost]
  simp only [hlist, hresponses, htags]
  rw [scanResponses_last tag.Name {} (tags.Responses.getD []) pre found post hsplit hname hlast]
  rw [if_neg hid]
  unfold associate
  simp only [hprops, Option.getD_some]
  rw [sendRequest_of_roundTrip L c _ _ _ _ _ w3 w4 _ b4 hput]
  simp [(decodeResponse_resp L _ b4 (none : Option (Target Unit))).1]

set_option maxRecDepth 100000 in
/-- C7 amended, at the input of `TestAddTagToFile` run a second time. -/
theorem addTag_again_witness :
    (AddTag (demoLib scriptDo) demoClient "Test/test.txt" testTag (secondAddTag tagListingXml)).1
      = .ret (false, none) :=
  congrArg Prod.fst (addTag_again (demoLib scriptDo) demoClient "Test/test.txt" testTag
    (secondAddTag tagListingXml) _ _ _ _ { String := "systemtags/" } conflictXml conflictXml
    (demoUnmarshalDir dirListingXml {}).1
    { XMLName := { Space := "DAV:", Local := "response" }, Href := "/remote.php/dav/files/admin/Test/test.txt",
      Properties := some [{ XMLName := { Space := "DAV:", Local := "prop" }, FileId := "42" }] } []
    { XMLName := { Space := "DAV:", Local := "prop" }, FileId := "42" } []
    (demoUnmarshalTags tagListingXml {}).1 [] { Id := "7", DisplayName := "Test123" } []
    rfl rfl rfl rfl rfl rfl rfl rfl (by simp) (by decide) rfl)

set_option maxRecDepth 100000 in
/-- C10, at failing inputs: `AddTag` panics when the POST of the tag gets no
reply, when the tag listing fails, when the first response of the file listing
has no properties, and when the association PUT gets no reply. -/
theorem addTag_faults :
    (AddTag (demoLib scriptDo) demoClient "Test/test.txt" testTag (start [noReply])).1 = .panic nilDeref
    ∧ (AddTag (demoLib scriptDo) demoClient "Test/test.txt" testTag
        (start [reply 201 "", reply 207 dirListingXml, noReply])).1 = .panic nilDeref
    ∧ (AddTag (demoLib scriptDo) demoClient "Test/test.txt" testTag
        (start [reply 201 "", reply 207 dirNoPropsXml, reply 207 tagListingXml])).1 = .panic indexOutOfRange
    ∧ (AddTag (demoLib scriptDo) demoClient "Test/test.txt" testTag
        (start [reply 201 "", reply 207 dirListingXml, reply 207 tagListingXml, noReply])).1 = .panic nilDeref := by
  decide

end Cloud
